import Mathlib

/-!
Verification of the two operator scripts in this repository:
`workaround.py` (fleet-wide repair scan of vhost `default_queue_type`
metadata) and `repro.py` (reproduction driver for the queue-redeclaration
bug).  Both scripts are straight-line orchestration over external
subprocesses; we embed them as pure functions over explicit environments
that supply each subprocess result and each client-library outcome.
-/

namespace DqtRepro

/-- Result of a finished subprocess, as returned by Python's
`subprocess.run(..., capture_output=True, text=True)`: an exit status and
the captured output streams. -/
structure CmdResult where
  returncode : Int
  stdout : String
  stderr : String
deriving DecidableEq, Repr

namespace Workaround

/-- One entry of the JSON listing produced by
`rabbitmqctl list_vhosts name default_queue_type --formatter json`:
a vhost name together with its `default_queue_type` metadata field,
which may be absent (`none`). -/
structure Vhost where
  name : String
  default_queue_type : Option String
deriving DecidableEq, Repr

/-- The trigger test of `workaround.py` `main`:
`dqt = vhost.get("default_queue_type", "not_set")` followed by
`dqt == "undefined"`. -/
def isBroken (v : Vhost) : Bool :=
  (v.default_queue_type.getD "not_set") == "undefined"

/-- One corrective invocation
`rabbitmqctl update_vhost_metadata <vhost> --default-queue-type <value>`. -/
structure UpdateCall where
  vhost : String
  value : String
deriving DecidableEq, Repr

/-- The loop body of `workaround.py` `main` (lines 36-47).  `rc k` is the
exit status of the `k`-th corrective subprocess; since the fix command is
run with `check=True`, a non-zero status raises `CalledProcessError`,
modelled as `Except.error` carrying the corrective calls attempted so far
and the failing status.  On normal completion it returns the corrective
calls issued and the final `fixed_count`. -/
def scanAux (rc : Nat → Int) (k : Nat) :
    List Vhost → Except (List UpdateCall × Int) (List UpdateCall × Nat)
  | [] => .ok ([], 0)
  | v :: rest =>
    if isBroken v then
      let call : UpdateCall := ⟨v.name, "classic"⟩
      if rc k ≠ 0 then .error ([call], rc k)
      else
        match scanAux rc (k + 1) rest with
        | .error (calls, r) => .error (call :: calls, r)
        | .ok (calls, n) => .ok (call :: calls, n + 1)
    else scanAux rc k rest

/-- The repair scan over a full listing, starting with `fixed_count = 0`. -/
def workaroundScan (rc : Nat → Int) (vs : List Vhost) :
    Except (List UpdateCall × Int) (List UpdateCall × Nat) :=
  scanAux rc 0 vs

/-- The summary printed after the loop (`workaround.py` lines 49-53):
only reached when the loop finished normally; aborting propagates the
exception and prints no summary. -/
def scanSummary :
    Except (List UpdateCall × Int) (List UpdateCall × Nat) → Option String
  | .ok (_, n) =>
    if n > 0 then some ("Fixed " ++ toString n ++ " vhost(s).")
    else some "All vhosts are OK."
  | .error _ => none

/-- Modelled from the spec: the effect on the broker's vhost records of the
external corrective call
`rabbitmqctl update_vhost_metadata <name> --default-queue-type <value>`.
The broker is not part of this repository; per the spec the metadata-update
call overwrites the named vhost's `default_queue_type` with the given valid
value. -/
def applyCall (c : UpdateCall) (vs : List Vhost) : List Vhost :=
  vs.map fun v =>
    if v.name == c.vhost then { v with default_queue_type := some c.value }
    else v

/-- Apply a sequence of corrective calls to the broker state, in order. -/
def applyCalls (cs : List UpdateCall) (vs : List Vhost) : List Vhost :=
  cs.foldl (fun acc c => applyCall c acc) vs

/-- The corrective calls issued by a scan in which every corrective
subprocess succeeds. -/
def scanCalls (vs : List Vhost) : List UpdateCall :=
  match workaroundScan (fun _ => 0) vs with
  | .ok (calls, _) => calls
  | .error (calls, _) => calls

/-- Broker state after one successful run of the repair scan. -/
def scanState (vs : List Vhost) : List Vhost :=
  applyCalls (scanCalls vs) vs

/-- The source's trigger test fires exactly on a present field equal to the
literal text "undefined": an absent field reads as "not_set". -/
theorem isBroken_eq (v : Vhost) :
    isBroken v = (v.default_queue_type == some "undefined") := by
  cases h : v.default_queue_type with
  | none => simp [isBroken, h]
  | some s => simp [isBroken, h]

/-- When every corrective subprocess exits 0, the scan returns exactly the
corrective calls for the broken entries, in listing order, and counts them. -/
theorem scanAux_ok (vs : List Vhost) (k : Nat) :
    scanAux (fun _ => 0) k vs =
      .ok ((vs.filter isBroken).map (fun v => ⟨v.name, "classic"⟩),
           (vs.filter isBroken).length) := by
  induction vs generalizing k with
  | nil => rfl
  | cons v rest ih =>
    by_cases hb : isBroken v
    · simp [scanAux, hb, ih (k + 1)]
    · simp [scanAux, hb, ih k]

/-- Updating a single record with one corrective call. -/
def applyOne (v : Vhost) (c : UpdateCall) : Vhost :=
  if v.name == c.vhost then { v with default_queue_type := some c.value }
  else v

theorem applyCalls_eq_map (cs : List UpdateCall) (vs : List Vhost) :
    applyCalls cs vs = vs.map (fun v => cs.foldl applyOne v) := by
  induction cs generalizing vs with
  | nil => simp [applyCalls]
  | cons c cs ih =>
    have h1 : applyCalls (c :: cs) vs = applyCalls cs (applyCall c vs) := rfl
    rw [h1, ih, applyCall, List.map_map]
    rfl

theorem applyOne_name (v : Vhost) (c : UpdateCall) :
    (applyOne v c).name = v.name := by
  by_cases h : v.name == c.vhost <;> simp [applyOne, h]

/-- Folding corrective calls that all carry the value "classic" over one
record either leaves it untouched (no call targets its name) or sets its
`default_queue_type` to "classic". -/
theorem foldl_applyOne (cs : List UpdateCall)
    (hc : ∀ c ∈ cs, c.value = "classic") (v : Vhost) :
    cs.foldl applyOne v =
      if cs.any (fun c => v.name == c.vhost) then
        { v with default_queue_type := some "classic" }
      else v := by
  induction cs generalizing v with
  | nil => simp
  | cons c cs ih =>
    have hcv : c.value = "classic" := hc c (List.mem_cons_self c cs)
    have hcs : ∀ c' ∈ cs, c'.value = "classic" :=
      fun c' h' => hc c' (List.mem_cons_of_mem c h')
    by_cases h : v.name == c.vhost
    · have h1 : applyOne v c = { v with default_queue_type := some "classic" } := by
        simp [applyOne, h, hcv]
      rw [List.foldl_cons, h1, ih hcs]
      simp [List.any_cons, h]
    · have h1 : applyOne v c = v := by simp [applyOne, h]
      have h2 : ((c :: cs).any fun c' => v.name == c'.vhost)
          = cs.any fun c' => v.name == c'.vhost := by
        simp [List.any_cons, h]
      rw [List.foldl_cons, h1, h2]
      exact ih hcs v

theorem scanCalls_eq (vs : List Vhost) :
    scanCalls vs = (vs.filter isBroken).map (fun v => ⟨v.name, "classic"⟩) := by
  simp [scanCalls, workaroundScan, scanAux_ok]

theorem scanCalls_value (vs : List Vhost) :
    ∀ c ∈ scanCalls vs, c.value = "classic" := by
  rw [scanCalls_eq]
  intro c hc
  rcases List.mem_map.mp hc with ⟨v, _, hv⟩
  rw [← hv]

/-- Pointwise description of the broker state after one successful scan:
each record is updated to "classic" exactly when some corrective call of the
scan targets its name. -/
theorem scanState_eq_map (vs : List Vhost) :
    scanState vs = vs.map fun v =>
      if (scanCalls vs).any (fun c => v.name == c.vhost) then
        { v with default_queue_type := some "classic" }
      else v := by
  rw [scanState, applyCalls_eq_map]
  refine List.map_congr_left fun v _ => ?_
  exact foldl_applyOne _ (scanCalls_value vs) v

/-- Every record a successful scan leaves behind is non-broken: a broken
record is targeted by its own corrective call, and a non-broken record
either keeps its valid value or is overwritten with "classic". -/
theorem scanState_not_broken (vs : List Vhost) :
    ∀ v ∈ scanState vs, isBroken v = false := by
  intro v hv
  rw [scanState_eq_map] at hv
  rcases List.mem_map.mp hv with ⟨u, hu, rfl⟩
  by_cases hmatch : (scanCalls vs).any (fun c => u.name == c.vhost)
  · simp [hmatch, isBroken]
  · simp only [hmatch, if_neg, Bool.not_eq_true]
    by_cases hb : isBroken u
    · exfalso
      apply hmatch
      rw [scanCalls_eq]
      refine List.any_eq_true.mpr ⟨⟨u.name, "classic"⟩, ?_, by simp⟩
      exact List.mem_map.mpr ⟨u, List.mem_filter.mpr ⟨hu, hb⟩, rfl⟩
    · simpa using hb

/-- With distinct vhost names, a record of the listing is targeted by some
corrective call of the scan exactly when it is itself broken. -/
theorem scanState_eq_of_nodup (vs : List Vhost)
    (h : (vs.map Vhost.name).Nodup) :
    scanState vs = vs.map fun v =>
      if isBroken v then { v with default_queue_type := some "classic" }
      else v := by
  rw [scanState_eq_map]
  refine List.map_congr_left fun v hv => ?_
  have hcond : ((scanCalls vs).any fun c => v.name == c.vhost) = isBroken v := by
    by_cases hb : isBroken v
    · rw [hb, List.any_eq_true, scanCalls_eq]
      exact ⟨⟨v.name, "classic"⟩,
        List.mem_map.mpr ⟨v, List.mem_filter.mpr ⟨hv, hb⟩, rfl⟩, by simp⟩
    · rw [Bool.eq_false_iff.mpr hb]
      rw [← Bool.not_eq_true, List.any_eq_true]
      rintro ⟨c, hc, hname⟩
      rw [scanCalls_eq] at hc
      rcases List.mem_map.mp hc with ⟨u, hu, rfl⟩
      have hvu : v = u :=
        List.inj_on_of_nodup_map h hv (List.mem_filter.mp hu).1
          (by simpa using hname)
      exact hb (hvu ▸ (List.mem_filter.mp hu).2)
  rw [hcond]

/-- C1: the corrective metadata-update call is invoked for an entry iff its
`default_queue_type` equals the literal text "undefined"; an absent field
(read back as "not_set") never triggers the update; and the reported
`fixed_count` equals the number of matching entries. -/
theorem workaround_fix_condition (vs : List Vhost) :
    workaroundScan (fun _ => 0) vs =
      .ok ((vs.filter fun v => v.default_queue_type == some "undefined").map
             (fun v => ⟨v.name, "classic"⟩),
           (vs.filter fun v => v.default_queue_type == some "undefined").length) ∧
    ∀ v : Vhost, v.default_queue_type = none → isBroken v = false := by
  constructor
  · have hf : vs.filter isBroken
        = vs.filter fun v => v.default_queue_type == some "undefined" :=
      List.filter_congr fun v _ => isBroken_eq v
    rw [workaroundScan, scanAux_ok, hf]
  · intro v hv
    rw [isBroken_eq, hv]
    rfl

/-- C3: the repair scan is idempotent: on the state left by one successful
scan, a second scan issues no corrective call, reports `fixed_count = 0`,
and prints the all-OK summary. -/
theorem workaround_scan_idempotent (vs : List Vhost) :
    workaroundScan (fun _ => 0) (scanState vs) = .ok ([], 0) ∧
    scanSummary (workaroundScan (fun _ => 0) (scanState vs))
      = some "All vhosts are OK." := by
  have h : (scanState vs).filter isBroken = [] :=
    List.filter_eq_nil_iff.mpr fun v hv => by
      simp [scanState_not_broken vs v hv]
  constructor
  · rw [workaroundScan, scanAux_ok, h]
    rfl
  · rw [workaroundScan, scanAux_ok, h]
    rfl

/-- C4: after one successful scan over a listing with distinct vhost names,
no record carries the literal "undefined", and every record that was not
broken is mapped to itself, byte for byte. -/
theorem workaround_scan_once (vs : List Vhost)
    (h : (vs.map Vhost.name).Nodup) :
    (∀ v ∈ scanState vs, v.default_queue_type ≠ some "undefined") ∧
    scanState vs = vs.map fun v =>
      if isBroken v then { v with default_queue_type := some "classic" }
      else v := by
  constructor
  · intro v hv
    have hb := scanState_not_broken vs v hv
    rw [isBroken_eq] at hb
    simpa using hb
  · exact scanState_eq_of_nodup vs h

/-- Witness for C4 at a concrete three-entry listing. -/
theorem workaround_scan_once_witness :
    (([⟨"v1", some "undefined"⟩, ⟨"v2", some "classic"⟩,
       ⟨"v3", none⟩] : List Vhost).map Vhost.name).Nodup ∧
    scanState [⟨"v1", some "undefined"⟩, ⟨"v2", some "classic"⟩, ⟨"v3", none⟩]
      = ([⟨"v1", some "undefined"⟩, ⟨"v2", some "classic"⟩,
          ⟨"v3", none⟩] : List Vhost).map fun v =>
          if isBroken v then { v with default_queue_type := some "classic" }
          else v :=
  ⟨by decide, (workaround_scan_once _ (by decide)).2⟩

/-- C7: on the listing
`[{"name":"v1","default_queue_type":"undefined"},
  {"name":"v2","default_queue_type":"classic"}]`
the scan issues exactly one corrective call, for "v1" only, and reports a
fixed-count of 1. -/
theorem workaround_scenario_d :
    workaroundScan (fun _ => 0)
        [⟨"v1", some "undefined"⟩, ⟨"v2", some "classic"⟩]
      = .ok ([⟨"v1", "classic"⟩], 1) ∧
    scanSummary (workaroundScan (fun _ => 0)
        [⟨"v1", some "undefined"⟩, ⟨"v2", some "classic"⟩])
      = some "Fixed 1 vhost(s)." := by
  constructor
  · rfl
  · rfl

/-- C9: when the first corrective subprocess that the scan runs exits with
a non-zero status, the scan aborts at that entry with a propagated
`CalledProcessError`: the only corrective call attempted is the failing
one, entries after it in the listing are never examined or repaired
(the result does not depend on `post`), and no fixed-count summary is
printed. -/
theorem workaround_scan_abort (pre post : List Vhost) (v : Vhost)
    (rc : Nat → Int) (hpre : ∀ u ∈ pre, isBroken u = false)
    (hv : isBroken v = true) (hrc : rc 0 ≠ 0) :
    workaroundScan rc (pre ++ v :: post)
      = .error ([⟨v.name, "classic"⟩], rc 0) ∧
    scanSummary (workaroundScan rc (pre ++ v :: post)) = none := by
  have hmain : workaroundScan rc (pre ++ v :: post)
      = .error ([⟨v.name, "classic"⟩], rc 0) := by
    rw [workaroundScan]
    induction pre with
    | nil =>
      simp only [List.nil_append, scanAux, hv, if_pos, hrc, if_true]
      simp [hrc]
    | cons u pre ih =>
      have hu : isBroken u = false := hpre u (List.mem_cons_self u pre)
      have hpre' : ∀ w ∈ pre, isBroken w = false :=
        fun w hw => hpre w (List.mem_cons_of_mem u hw)
      simpa [scanAux, hu] using ih hpre'
  exact ⟨hmain, by rw [hmain]; rfl⟩

/-- Witness for C9: one healthy entry, then a broken entry whose fix fails
with exit status 1, then another broken entry that is never reached. -/
theorem workaround_scan_abort_witness :
    isBroken ⟨"v1", some "undefined"⟩ = true ∧ (1 : Int) ≠ 0 ∧
    workaroundScan (fun _ => 1)
        ([⟨"v0", some "classic"⟩] ++ ⟨"v1", some "undefined"⟩ ::
          [⟨"v2", some "undefined"⟩])
      = .error ([⟨"v1", "classic"⟩], 1) ∧
    scanSummary (workaroundScan (fun _ => 1)
        ([⟨"v0", some "classic"⟩] ++ ⟨"v1", some "undefined"⟩ ::
          [⟨"v2", some "undefined"⟩])) = none :=
  ⟨by decide, by decide,
    (workaround_scan_abort _ _ _ _ (by decide) (by decide) (by decide)).1,
    (workaround_scan_abort _ _ _ _ (by decide) (by decide) (by decide)).2⟩

end Workaround

namespace Repro

def VHOST : String := "dqt_bug_repro"

def QUEUE : String := "test_queue"

def YELLOW : String := "\x1b[0;33m"

def GREEN : String := "\x1b[0;32m"

def RED : String := "\x1b[0;31m"

def NC : String := "\x1b[0m"

/-- `run` from `repro.py` (lines 46-61): runs a subprocess, prints its
output, and, when `check` is set, raises `CalledProcessError` (modelled as
`Except.error` carrying the exit status) on a non-zero exit status. -/
def run (check : Bool) (result : CmdResult) : Except Int CmdResult :=
  if check = true ∧ result.returncode ≠ 0 then .error result.returncode
  else .ok result

/-- `run_eval` from `repro.py` (lines 64-77): runs `rabbitmqctl eval`,
prints its output, and returns the result without ever inspecting the exit
status; no exit status makes it raise. -/
def run_eval (result : CmdResult) : CmdResult :=
  result

/-- Whether `pat` occurs at the start of `hay`. -/
def isPre : List Char → List Char → Bool
  | [], _ => true
  | _ :: _, [] => false
  | p :: ps, c :: cs => p == c && isPre ps cs

/-- Whether `pat` occurs somewhere in `hay`. -/
def subOccurs (pat : List Char) : List Char → Bool
  | [] => pat.isEmpty
  | c :: cs => isPre pat (c :: cs) || subOccurs pat cs

/-- The Python substring test `pat in s`. -/
def hasSubstr (s pat : String) : Bool :=
  subOccurs pat.data s.data

/-- Outcome of one Pika `queue_declare` attempt, as observed by the broad
exception handling of `declare_queue_pika`: normal completion, a
channel-closure exception raised by the broker with its message text, or
any other exception with its type name and message. -/
inductive DeclOutcome
  | success
  | channelClosedByBroker (msg : String)
  | otherError (exnType msg : String)
deriving DecidableEq, Repr

/-- `declare_queue_pika` from `repro.py` (lines 80-113): declares the queue
over a client connection and reports the outcome as printed pass/fail lines
plus a boolean; every broker- or connection-raised exception is caught, so
the function never propagates one.  Under `expect_fail` the declaration
counts as the expected failure exactly when the broker-raised
channel-closure message contains "PRECONDITION_FAILED".  The echoed
command line is omitted; only the outcome report lines are modelled. -/
def declare_queue_pika (vhost queue : String) (expect_fail : Bool)
    (o : DeclOutcome) : List String × Bool :=
  match o with
  | .success =>
    if expect_fail then
      (["  " ++ RED ++ "error: Queue declaration succeeded (bug not reproduced)"
          ++ NC], false)
    else
      (["  " ++ GREEN ++ "Queue declared successfully." ++ NC], true)
  | .channelClosedByBroker msg =>
    if expect_fail && hasSubstr msg "PRECONDITION_FAILED" then
      (["  " ++ GREEN ++ "Success: got expected precondition_failed:" ++ NC,
        "    " ++ msg], true)
    else
      (["  " ++ RED ++ "error: " ++ msg ++ NC], false)
  | .otherError exnType msg =>
    (["  " ++ RED ++ "error: " ++ exnType ++ ": " ++ msg ++ NC], false)

/-- One external effect of the reproduction driver: a broker-state mutation
or inspection performed through a subprocess or the client connection. -/
inductive Effect
  | deleteVhost (name : String)
  | declareVhost (name : String)
  | declarePermissions (vhost user : String)
  | declareQueue (vhost queue : String) (expectFail : Bool)
  | evalInspectQueueArgs (vhost queue : String)
  | evalInspectVhostMeta (vhost : String)
  | evalMergeMetadata (vhost value : String)
  | updateVhostMetadata (vhost value : String)
deriving DecidableEq, Repr

/-- How a run of the driver ends: falling off the end of `main` (process
exit 0), an explicit `sys.exit`, or an uncaught `CalledProcessError` from a
checked subprocess. -/
inductive Outcome
  | finished
  | exited (code : Nat)
  | raised (returncode : Int)
deriving DecidableEq, Repr

/-- The environment a run of `repro.py` `main` executes against: the result
of each successive `run` subprocess, the result of each successive
`run_eval` subprocess, and the outcome of each successive Pika queue
declaration. -/
structure Env where
  runResult : Nat → CmdResult
  evalResult : Nat → CmdResult
  decl : Nat → DeclOutcome

/-- `main` from `repro.py` (lines 116-188), as the sequence of external
effects performed and the way the run ends.  The cleanup `delete_vhost` is
run with `check=False`; the provisioning and workaround commands are run
with `check=True`; the three metadata-verification `rabbitmqctl eval`
calls and the Step-7/Step-10 declaration results are discarded. -/
def main (env : Env) : List Effect × Outcome :=
  match run false (env.runResult 0) with
  | .error r => ([.deleteVhost VHOST], .raised r)
  | .ok _ =>
    match run true (env.runResult 1) with
    | .error r => ([.deleteVhost VHOST, .declareVhost VHOST], .raised r)
    | .ok _ =>
      match run true (env.runResult 2) with
      | .error r =>
        ([.deleteVhost VHOST, .declareVhost VHOST,
          .declarePermissions VHOST "guest"], .raised r)
      | .ok _ =>
        if !(declare_queue_pika VHOST QUEUE false (env.decl 0)).2 then
          ([.deleteVhost VHOST, .declareVhost VHOST,
            .declarePermissions VHOST "guest",
            .declareQueue VHOST QUEUE false], .exited 1)
        else
          let _ := run_eval (env.evalResult 0)
          let _ := run_eval (env.evalResult 1)
          let _ := run_eval (env.evalResult 2)
          let _ := run_eval (env.evalResult 3)
          let _ := declare_queue_pika VHOST QUEUE true (env.decl 1)
          match run true (env.runResult 3) with
          | .error r =>
            ([.deleteVhost VHOST, .declareVhost VHOST,
              .declarePermissions VHOST "guest",
              .declareQueue VHOST QUEUE false,
              .evalInspectQueueArgs VHOST QUEUE,
              .evalInspectVhostMeta VHOST,
              .evalMergeMetadata VHOST "undefined",
              .evalInspectVhostMeta VHOST,
              .declareQueue VHOST QUEUE true,
              .updateVhostMetadata VHOST "classic"], .raised r)
          | .ok _ =>
            let _ := run_eval (env.evalResult 4)
            let _ := declare_queue_pika VHOST QUEUE false (env.decl 2)
            ([.deleteVhost VHOST, .declareVhost VHOST,
              .declarePermissions VHOST "guest",
              .declareQueue VHOST QUEUE false,
              .evalInspectQueueArgs VHOST QUEUE,
              .evalInspectVhostMeta VHOST,
              .evalMergeMetadata VHOST "undefined",
              .evalInspectVhostMeta VHOST,
              .declareQueue VHOST QUEUE true,
              .updateVhostMetadata VHOST "classic",
              .evalInspectVhostMeta VHOST,
              .declareQueue VHOST QUEUE false], .finished)

/-- The whole script: the module-level `import pika` guard (lines 21-25)
runs before `main`; when the library is missing the script prints the
instructional message and exits 1 without reaching `main`, hence before
any external call. -/
def reproScript (pikaInstalled : Bool) (env : Env) :
    List String × List Effect × Outcome :=
  if pikaInstalled then ([], (main env).1, (main env).2)
  else (["error: pika not installed. Run: pip install pika"], [], .exited 1)

/-- Case analysis of `main`: the run is decided by the three checked
subprocess results and the Step-2 declaration outcome alone; the eval
results and the Step-7/Step-10 declaration results are discarded. -/
theorem main_cases (env : Env) :
    main env =
      if (env.runResult 1).returncode ≠ 0 then
        ([.deleteVhost VHOST, .declareVhost VHOST],
          .raised (env.runResult 1).returncode)
      else if (env.runResult 2).returncode ≠ 0 then
        ([.deleteVhost VHOST, .declareVhost VHOST,
          .declarePermissions VHOST "guest"],
          .raised (env.runResult 2).returncode)
      else if !(declare_queue_pika VHOST QUEUE false (env.decl 0)).2 then
        ([.deleteVhost VHOST, .declareVhost VHOST,
          .declarePermissions VHOST "guest",
          .declareQueue VHOST QUEUE false], .exited 1)
      else if (env.runResult 3).returncode ≠ 0 then
        ([.deleteVhost VHOST, .declareVhost VHOST,
          .declarePermissions VHOST "guest",
          .declareQueue VHOST QUEUE false,
          .evalInspectQueueArgs VHOST QUEUE,
          .evalInspectVhostMeta VHOST,
          .evalMergeMetadata VHOST "undefined",
          .evalInspectVhostMeta VHOST,
          .declareQueue VHOST QUEUE true,
          .updateVhostMetadata VHOST "classic"],
          .raised (env.runResult 3).returncode)
      else
        ([.deleteVhost VHOST, .declareVhost VHOST,
          .declarePermissions VHOST "guest",
          .declareQueue VHOST QUEUE false,
          .evalInspectQueueArgs VHOST QUEUE,
          .evalInspectVhostMeta VHOST,
          .evalMergeMetadata VHOST "undefined",
          .evalInspectVhostMeta VHOST,
          .declareQueue VHOST QUEUE true,
          .updateVhostMetadata VHOST "classic",
          .evalInspectVhostMeta VHOST,
          .declareQueue VHOST QUEUE false], .finished) := by
  have e0 : run false (env.runResult 0) = .ok (env.runResult 0) := rfl
  by_cases h1 : (env.runResult 1).returncode ≠ 0
  · have e1 : run true (env.runResult 1)
        = .error (env.runResult 1).returncode := by simp [run, h1]
    simp only [main, e0, e1]
    rw [if_pos h1]
  · have e1 : run true (env.runResult 1) = .ok (env.runResult 1) := by
      simp [run, h1]
    rw [if_neg h1]
    by_cases h2 : (env.runResult 2).returncode ≠ 0
    · have e2 : run true (env.runResult 2)
          = .error (env.runResult 2).returncode := by simp [run, h2]
      simp only [main, e0, e1, e2]
      rw [if_pos h2]
    · have e2 : run true (env.runResult 2) = .ok (env.runResult 2) := by
        simp [run, h2]
      rw [if_neg h2]
      cases hb : (declare_queue_pika VHOST QUEUE false (env.decl 0)).2 with
      | false =>
        simp only [main, e0, e1, e2, hb]
        simp
      | true =>
        rw [if_neg (by simp)]
        by_cases h3 : (env.runResult 3).returncode ≠ 0
        · have e3 : run true (env.runResult 3)
              = .error (env.runResult 3).returncode := by simp [run, h3]
          simp only [main, e0, e1, e2, e3, hb]
          simp [h3]
        · have e3 : run true (env.runResult 3) = .ok (env.runResult 3) := by
            simp [run, h3]
          have h3' : (env.runResult 3).returncode = 0 := not_ne_iff.mp h3
          simp only [main, e0, e1, e2, e3, hb]
          simp [h3']

/-- An environment in which every subprocess exits 0 and every declaration
completes normally. -/
def envAllOk : Env :=
  ⟨fun _ => ⟨0, "", ""⟩, fun _ => ⟨0, "", ""⟩, fun _ => .success⟩

/-- An environment in which every checked subprocess exits 0 but every
`rabbitmqctl eval` subprocess exits 1. -/
def envEvalFail : Env :=
  ⟨fun _ => ⟨0, "", ""⟩, fun _ => ⟨1, "", ""⟩, fun _ => .success⟩

/-- An environment in which the Step-1 vhost-declare subprocess exits 1 and
everything else succeeds. -/
def envRun1Fail : Env :=
  ⟨fun i => if i = 1 then ⟨1, "", ""⟩ else ⟨0, "", ""⟩,
   fun _ => ⟨0, "", ""⟩, fun _ => .success⟩

/-- An environment agreeing with `envAllOk` on every subprocess result and
on the Step-2 declaration, but in which the Step-7 declaration unexpectedly
succeeds and the Step-10 declaration fails with a connection error. -/
def envDiscarded : Env :=
  ⟨fun _ => ⟨0, "", ""⟩, fun _ => ⟨0, "", ""⟩,
   fun i => if i = 0 then .success
     else .otherError "AMQPConnectionError" "connection reset"⟩

/-- C2 counterexample: an external command of the driver (the Step-3
`rabbitmqctl eval` inspection) returns a non-zero exit status, yet the run
is not aborted at that step: nothing is raised and the driver runs to
normal completion. -/
theorem repro_eval_failure_not_fatal :
    (envEvalFail.evalResult 0).returncode ≠ 0 ∧
    (main envEvalFail).2 = Outcome.finished := by
  exact ⟨by decide, rfl⟩

/-- C2 (amended): no retries anywhere; an external command failure is fatal
exactly where the call is checked: a non-zero exit status from a command
run through `run` with `check=True` raises `CalledProcessError`, which
propagates and terminates the run at that step (shown for the Step-1
provisioning command: the later effects never happen), while `run` with
`check=False` and `run_eval` return normally on any exit status. -/
theorem repro_checked_abort (r : CmdResult) (env : Env)
    (hr : r.returncode ≠ 0) (henv : env.runResult 1 = r) :
    run true r = .error r.returncode ∧
    run false r = .ok r ∧
    run_eval r = r ∧
    main env = ([Effect.deleteVhost VHOST, Effect.declareVhost VHOST],
      .raised r.returncode) := by
  refine ⟨by simp [run, hr], rfl, rfl, ?_⟩
  rw [main_cases env, henv, if_pos hr]

/-- Witness for the amended C2 at exit status 1 on the Step-1 command. -/
theorem repro_checked_abort_witness :
    ((1 : Int) ≠ 0) ∧
    envRun1Fail.runResult 1 = ⟨1, "", ""⟩ ∧
    run true ⟨1, "", ""⟩ = .error 1 ∧
    run false ⟨1, "", ""⟩ = .ok ⟨1, "", ""⟩ ∧
    run_eval ⟨1, "", ""⟩ = ⟨1, "", ""⟩ ∧
    main envRun1Fail = ([Effect.deleteVhost VHOST, Effect.declareVhost VHOST],
      .raised 1) := by
  refine ⟨by decide, rfl, ?_⟩
  have h := repro_checked_abort ⟨1, "", ""⟩ envRun1Fail (by decide) rfl
  exact h

/-- C5: with every checked subprocess succeeding and the Step-2 declaration
reporting success, the driver performs the full concrete effect sequence,
and the seven contract steps (a)-(g) — provision the vhost, declare the
queue without a type argument, inspect the stored queue arguments via eval,
corrupt the metadata to the literal "undefined", re-declare expecting
failure, set the default-queue-type to "classic", and re-declare expecting
success — occur within it exactly in that order. -/
theorem repro_effect_order (env : Env)
    (hok : ∀ i, (env.runResult i).returncode = 0)
    (hb : (declare_queue_pika VHOST QUEUE false (env.decl 0)).2 = true) :
    (main env).1 =
      [Effect.deleteVhost VHOST, Effect.declareVhost VHOST,
       Effect.declarePermissions VHOST "guest",
       Effect.declareQueue VHOST QUEUE false,
       Effect.evalInspectQueueArgs VHOST QUEUE,
       Effect.evalInspectVhostMeta VHOST,
       Effect.evalMergeMetadata VHOST "undefined",
       Effect.evalInspectVhostMeta VHOST,
       Effect.declareQueue VHOST QUEUE true,
       Effect.updateVhostMetadata VHOST "classic",
       Effect.evalInspectVhostMeta VHOST,
       Effect.declareQueue VHOST QUEUE false] ∧
    List.Sublist
      [Effect.declareVhost VHOST,
       Effect.declareQueue VHOST QUEUE false,
       Effect.evalInspectQueueArgs VHOST QUEUE,
       Effect.evalMergeMetadata VHOST "undefined",
       Effect.declareQueue VHOST QUEUE true,
       Effect.updateVhostMetadata VHOST "classic",
       Effect.declareQueue VHOST QUEUE false]
      (main env).1 := by
  have hm : main env = _ := main_cases env
  rw [hm, if_neg (by simp [hok 1]), if_neg (by simp [hok 2]),
    if_neg (by simp [hb]), if_neg (by simp [hok 3])]
  exact ⟨rfl, by decide⟩

/-- Witness for C5 in the all-success environment. -/
theorem repro_effect_order_witness :
    (envAllOk.runResult 0).returncode = 0 ∧
    (declare_queue_pika VHOST QUEUE false (envAllOk.decl 0)).2 = true ∧
    (main envAllOk).1 =
      [Effect.deleteVhost VHOST, Effect.declareVhost VHOST,
       Effect.declarePermissions VHOST "guest",
       Effect.declareQueue VHOST QUEUE false,
       Effect.evalInspectQueueArgs VHOST QUEUE,
       Effect.evalInspectVhostMeta VHOST,
       Effect.evalMergeMetadata VHOST "undefined",
       Effect.evalInspectVhostMeta VHOST,
       Effect.declareQueue VHOST QUEUE true,
       Effect.updateVhostMetadata VHOST "classic",
       Effect.evalInspectVhostMeta VHOST,
       Effect.declareQueue VHOST QUEUE false] ∧
    List.Sublist
      [Effect.declareVhost VHOST,
       Effect.declareQueue VHOST QUEUE false,
       Effect.evalInspectQueueArgs VHOST QUEUE,
       Effect.evalMergeMetadata VHOST "undefined",
       Effect.declareQueue VHOST QUEUE true,
       Effect.updateVhostMetadata VHOST "classic",
       Effect.declareQueue VHOST QUEUE false]
      (main envAllOk).1 := by
  have h := repro_effect_order envAllOk (fun i => rfl) rfl
  exact ⟨rfl, rfl, h.1, h.2⟩

/-- C6: a mismatch between the expected and actual declaration outcome is
reported as a printed fail line with result `false`; the function catches
every exception of the attempt and returns report lines and a boolean for
all outcomes, so the mismatch never escapes as an exception.  Under
expect-failure mode the attempt counts as the expected failure exactly when
the broker-raised channel-closure message contains "PRECONDITION_FAILED". -/
theorem declare_queue_report (vhost queue msg exnType other : String) :
    ((declare_queue_pika vhost queue true (.channelClosedByBroker msg)).2 = true
      ↔ hasSubstr msg "PRECONDITION_FAILED" = true) ∧
    declare_queue_pika vhost queue true .success
      = (["  " ++ RED ++ "error: Queue declaration succeeded (bug not reproduced)"
            ++ NC], false) ∧
    ((declare_queue_pika vhost queue false (.channelClosedByBroker msg))
      = (["  " ++ RED ++ "error: " ++ msg ++ NC], false)) ∧
    ((declare_queue_pika vhost queue false (.otherError exnType other))
      = (["  " ++ RED ++ "error: " ++ exnType ++ ": " ++ other ++ NC], false)) := by
  refine ⟨?_, rfl, rfl, rfl⟩
  by_cases h : hasSubstr msg "PRECONDITION_FAILED" <;>
    simp [declare_queue_pika, h]

/-- C8: when the client library is missing, the script prints the
instructional message and exits 1 with an empty effect trace, i.e. before
performing any external call. -/
theorem repro_missing_pika (env : Env) :
    reproScript false env
      = (["error: pika not installed. Run: pip install pika"], [], .exited 1) := by
  rfl

/-- C10: the driver's exit status is decided by the checked subprocess
results and the Step-2 declaration outcome alone: two runs agreeing on
those agree on the outcome whatever the Step-7 and Step-10 declarations do
(their results are discarded); when every checked subprocess succeeds the
run finishes (exit 0) exactly when Step 2 reported success; and an exit
code of 1 can only arise from the Step-2 declaration failing. -/
theorem repro_exit_code (env env' : Env)
    (hr : ∀ i, env.runResult i = env'.runResult i)
    (hd : env.decl 0 = env'.decl 0)
    (hok : ∀ i, (env.runResult i).returncode = 0) :
    (main env).2 = (main env').2 ∧
    ((declare_queue_pika VHOST QUEUE false (env.decl 0)).2 = true →
      (main env).2 = .finished) ∧
    ((declare_queue_pika VHOST QUEUE false (env.decl 0)).2 = false →
      (main env).2 = .exited 1) ∧
    ((main env).2 = .exited 1 →
      (declare_queue_pika VHOST QUEUE false (env.decl 0)).2 = false) := by
  have hmm : main env = main env' := by
    rw [main_cases env, main_cases env', hr 1, hr 2, hr 3, hd]
  refine ⟨congrArg Prod.snd hmm, ?_, ?_, ?_⟩
  · intro hb
    rw [main_cases env, if_neg (by simp [hok 1]), if_neg (by simp [hok 2]),
      if_neg (by simp [hb]), if_neg (by simp [hok 3])]
  · intro hb
    rw [main_cases env, if_neg (by simp [hok 1]), if_neg (by simp [hok 2]),
      if_pos (by simp [hb])]
  · intro hex
    cases hb : (declare_queue_pika VHOST QUEUE false (env.decl 0)).2 with
    | false => rfl
    | true =>
      rw [main_cases env, if_neg (by simp [hok 1]), if_neg (by simp [hok 2]),
        if_neg (by simp [hb]), if_neg (by simp [hok 3])] at hex
      exact absurd hex (by simp)

/-- Witness for C10: the all-success run and a run differing only in the
discarded Step-7 and Step-10 declaration outcomes end the same way, with
exit 0. -/
theorem repro_exit_code_witness :
    envAllOk.decl 0 = envDiscarded.decl 0 ∧
    envDiscarded.decl 2
      = DeclOutcome.otherError "AMQPConnectionError" "connection reset" ∧
    (main envAllOk).2 = (main envDiscarded).2 ∧
    (main envAllOk).2 = Outcome.finished := by
  have h := repro_exit_code envAllOk envDiscarded (fun i => rfl) rfl
    (fun i => rfl)
  exact ⟨rfl, rfl, h.1, h.2.1 rfl⟩

end Repro

end DqtRepro
